import Mathlib

/-!
Shallow embedding of the LispX interpreter's primitive registry
(`interpreter/functions.go`) together with models, written from the
system specification, of the parts of the interpreter the registry
depends on (the `expressions` data package and the evaluator's
argument-evaluation policies); every such model is marked
`Modelled from the spec:` in its doc comment.  Go `float64` numbers are
modelled as `ℚ`; none of the properties proved here depend on floating
point rounding.
-/

namespace LispX

/-- The expression data model (spec §3).  The Go `expressions` package is
not among the sources, so the variants are modelled from the spec: `Nil`,
`T`, `Number` (float64, modelled as `ℚ`), `String`, `Symbol`, `Pair`,
`Closure` (parameter spec, body sequence, captured Environment
reference, modelled as an identifier), `Error` (message). -/
inductive Expr where
  | nilE
  | tE
  | number (n : ℚ)
  | stringE (s : String)
  | symbol (s : String)
  | pair (hd tl : Expr)
  | closure (params : Expr) (body : List Expr) (env : Nat)
  | error (msg : String)

/-- `Expr.IsNil()`: the variant test used for truthiness (spec §3: every
value other than `Nil` is truthy). -/
def Expr.isNil : Expr → Bool
  | .nilE => true
  | _ => false

/-- `arg.Type == ex.Number` in the Go sources. -/
def Expr.isNumber : Expr → Bool
  | .number _ => true
  | _ => false

/-- `arg.Type == ex.String`. -/
def Expr.isString : Expr → Bool
  | .stringE _ => true
  | _ => false

/-- `arg.Type == ex.Symbol`. -/
def Expr.isSymbol : Expr → Bool
  | .symbol _ => true
  | _ => false

/-- `arg.Type == ex.Pair`. -/
def Expr.isPair : Expr → Bool
  | .pair _ _ => true
  | _ => false

/-- `arg.Type == ex.Error`: recognises Error values (spec §7). -/
def Expr.isError : Expr → Bool
  | .error _ => true
  | _ => false

/-- Reading the `.Number` struct field of a Go `ex.Expr` of ANY variant:
the field exists on every variant and holds the Go zero value `0` unless
the expression is a `Number`.  `functions.go` line 471 reads this field
without a variant check. -/
def Expr.numberField : Expr → ℚ
  | .number n => n
  | _ => 0

/-- `ir.newError`: evaluation failures are represented as `Error` values,
never exceptions (spec §7). -/
def errD (msg : String) : Expr := Expr.error msg

/-- Modelled from the spec: `Expr.Car` of the missing `expressions`
package; `head` is valid only on `Pair`, and `head` of a non-`Pair` is a
structural `Error` value (spec §4.1, §7). -/
def car : Expr → Expr
  | .pair a _ => a
  | _ => errD ("car: not a pair")

/-- Modelled from the spec: `Expr.Cdr`, the `tail` accessor (spec §4.1, §7). -/
def cdr : Expr → Expr
  | .pair _ b => b
  | _ => errD ("cdr: not a pair")

/-- One Environment frame: `CurSymbols`, a Go map from symbol text to
bound expression (spec §3), modelled as an association list with
first-match lookup and in-place overwrite.  An Environment chain from the
current Environment to the root is a `List Frame` (the `Parent` links). -/
abbrev Frame := List (String × Expr)

/-- Map lookup in a frame. -/
def frameGet : Frame → String → Option Expr
  | [], _ => none
  | (k, v) :: rest, s => if k = s then some v else frameGet rest s

/-- The Go `_, ok := curEnv.CurSymbols[s]` membership test. -/
def frameHas (f : Frame) (s : String) : Bool := (frameGet f s).isSome

/-- Map assignment `CurSymbols[s] = v`: overwrite when present, insert
otherwise. -/
def frameSet : Frame → String → Expr → Frame
  | [], s, v => [(s, v)]
  | (k, w) :: rest, s, v =>
      if k = s then (s, v) :: rest else (k, w) :: frameSet rest s v

/-! ## The primitive behavior functions of `interpreter/functions.go`

Each `...F` definition is the behavior function stored under the quoted
registry key, translated clause for clause from the Go source.  Stateful
primitives (`define`, `set!`, `display`) take and return their state
explicitly. -/

/-- Registry entry `"eval"` (functions.go lines 30-38): wraps its argument
— or, on an arity violation, a fresh Error value — in a `(begin ·)` list
built with `NewSymbol("begin").Cons(x.ToList())`, to be re-submitted to
the Evaluator (spec §4.3, MetaReenter). -/
def evalF : List Expr → Expr
  | [a] => Expr.pair (Expr.symbol ("begin")) (Expr.pair a Expr.nilE)
  | _ =>
      Expr.pair (Expr.symbol ("begin"))
        (Expr.pair (errD ("quote: must be 1 argument")) Expr.nilE)

/-- Registry entry `"quote"` (lines 40-52): returns its single argument
unchanged; any other argument count is an Error value. -/
def quoteF : List Expr → Expr
  | [a] => a
  | _ => errD ("quote: must be 1 argument")

/-- Registry entry `"car"` (lines 54-62). -/
def carF : List Expr → Expr
  | [a] => car a
  | _ => errD ("car: must be 1 argument")

/-- Registry entry `"cdr"` (lines 64-72). -/
def cdrF : List Expr → Expr
  | [a] => cdr a
  | _ => errD ("cdr: must be 1 argument")

/-- Registry entry `"cons"` (lines 74-82): `args[0].Cons(args[1])` builds
the pair with head `args[0]` and tail `args[1]`. -/
def consF : List Expr → Expr
  | [a, b] => Expr.pair a b
  | _ => errD ("cons: must be 2 arguments")

/-- Registry entry `"define"` (lines 84-101): writes into the CURRENT
Environment's `CurSymbols` only (`ir.varsEnvironment` is passed as the
current frame `cur` plus the ancestor chain `rest`, which it never
touches) and returns the bound value. -/
def defineF (cur : Frame) (rest : List Frame) : List Expr → Frame × List Frame × Expr
  | [a, b] =>
      match a with
      | .symbol s => (frameSet cur s b, rest, b)
      | _ => (cur, rest, errD ("define: second argument is not symbol"))
  | _ => (cur, rest, errD ("define: must be 2 arguments"))

/-- The `set!` scan loop (lines 113-120), translated faithfully: `chain`
is the whole Environment chain `ir.varsEnvironment`, `i` the index of the
Go pointer `curEnv` into it.  The loop body, on a miss, executes
`curEnv = ir.varsEnvironment.Parent` — index `1` of `chain`, NOT the
parent of `curEnv` — so the next index is always `1`.  The Go loop can
therefore run forever; `fuel` makes the model total, with `none` meaning
the loop has not terminated within `fuel` iterations.
`some none` models falling out of the loop (symbol unbound), and
`some (some chain2)` models the mutating return. -/
def setLoop (chain : List Frame) (s : String) (v : Expr) : Nat → Nat → Option (Option (List Frame))
  | 0, _ => none
  | fuel + 1, i =>
      if h : i < chain.length then
        if frameHas (chain.get ⟨i, h⟩) s then
          some (some (chain.set i (frameSet (chain.get ⟨i, h⟩) s v)))
        else
          setLoop chain s v fuel 1
      else
        some none

/-- Registry entry `"set!"` (lines 103-128): after the arity and symbol
checks, scans the Environment chain with `setLoop`; `none` propagates the
loop's non-termination. -/
def setBangF (fuel : Nat) (chain : List Frame) : List Expr → Option (List Frame × Expr)
  | [a, b] =>
      match a with
      | .symbol s =>
          match setLoop chain s b fuel 0 with
          | none => none
          | some none =>
              some (chain, errD ("set!: symbol \x27" ++ s ++ "\x27 is not defined"))
          | some (some chain2) => some (chain2, b)
      | _ => some (chain, errD ("set!: second argument is not symbol"))
  | _ => some (chain, errD ("set!: must be 2 arguments"))

/-- Registry entry `"lambda"` (lines 130-142): builds a Closure capturing
the current Environment (here its identifier `env`). -/
def lambdaF (env : Nat) : List Expr → Expr
  | a :: b :: rest => Expr.closure a (b :: rest) env
  | _ => errD ("define: must be at less 2 arguments")

/-- Registry entry `"begin"` (lines 144-151): `Nil` on no arguments, the
last argument otherwise. -/
def beginF : List Expr → Expr
  | [] => Expr.nilE
  | a :: rest => (a :: rest).getLast (List.cons_ne_nil a rest)

/-- Registry entry `"or"` (lines 153-166): the first non-`Nil` argument,
else `Nil`. -/
def orF : List Expr → Expr
  | [] => Expr.nilE
  | a :: rest => if a.isNil then orF rest else a

/-- Registry entry `"and"` (lines 168-179): `T` on no arguments, the last
argument otherwise. -/
def andF : List Expr → Expr
  | [] => Expr.tE
  | a :: rest => (a :: rest).getLast (List.cons_ne_nil a rest)

/-- Registry entry `"if"` (lines 181-200): `args[0]` is the already
evaluated test, the remaining arguments are the raw branch expressions;
the selected branch is returned unevaluated for the trampoline. -/
def ifF : List Expr → Expr
  | [t, a] => if t.isNil then Expr.nilE else a
  | [t, a, b] => if t.isNil then b else a
  | args => errD ("if: expected 2 or 3 expressions, got " ++ toString args.length)

/-- Registry entry `">"` (lines 202-220): 2 or 3 arguments, ALL of which
must be `Number`s; compares `args[0].Number > args[1].Number` only. -/
def gtF : List Expr → Expr
  | [a, b] =>
      if a.isNumber && b.isNumber then
        if a.numberField > b.numberField then Expr.tE else Expr.nilE
      else errD (">: expected numbers")
  | [a, b, c] =>
      if a.isNumber && b.isNumber && c.isNumber then
        if a.numberField > b.numberField then Expr.tE else Expr.nilE
      else errD (">: expected numbers")
  | args => errD (">: expected 2 expressions, got " ++ toString args.length)

/-- Registry entry `"<"` (lines 222-240): mirror image of `">"`. -/
def ltF : List Expr → Expr
  | [a, b] =>
      if a.isNumber && b.isNumber then
        if a.numberField < b.numberField then Expr.tE else Expr.nilE
      else errD ("<: expected numbers")
  | [a, b, c] =>
      if a.isNumber && b.isNumber && c.isNumber then
        if a.numberField < b.numberField then Expr.tE else Expr.nilE
      else errD ("<: expected numbers")
  | args => errD ("<: expected 2 expressions, got " ++ toString args.length)

/-- Modelled from the spec: `Expr.Equal` of the missing `expressions`
package — structural for `Number`/`String`/`Symbol`, identity-like for
`Nil`/`T`, false across mismatched variants (spec §3). -/
def eqb : Expr → Expr → Bool
  | .nilE, .nilE => true
  | .tE, .tE => true
  | .number a, .number b => a = b
  | .stringE a, .stringE b => a = b
  | .symbol a, .symbol b => a = b
  | _, _ => false

/-- Registry entry `"="` (lines 242-257): `cur` stays `args[0]` through
the whole loop, so every later argument is compared against the first. -/
def eqF : List Expr → Expr
  | a :: b :: rest =>
      if (b :: rest).all (eqb a) then Expr.tE else Expr.nilE
  | args => errD ("=: expected at less 2 expressions, got " ++ toString args.length)

/-- Registry entry `"not"` (lines 259-271). -/
def notF : List Expr → Expr
  | [a] => if a.isNil then Expr.tE else Expr.nilE
  | _ => errD ("not: must be 1 argument")

/-- Registry entry `"atom?"` (lines 273-285). -/
def atomQF : List Expr → Expr
  | [a] => if a.isPair then Expr.nilE else Expr.tE
  | _ => errD ("atom?: must be 1 argument")

/-- Registry entry `"list?"` (lines 287-299). -/
def listQF : List Expr → Expr
  | [a] => if a.isPair || a.isNil then Expr.tE else Expr.nilE
  | _ => errD ("list?: must be 1 argument")

/-- Registry entry `"number?"` (lines 301-313). -/
def numberQF : List Expr → Expr
  | [a] => if a.isNumber then Expr.tE else Expr.nilE
  | _ => errD ("number?: must be 1 argument")

/-- Registry entry `"string?"` (lines 315-327). -/
def stringQF : List Expr → Expr
  | [a] => if a.isString then Expr.tE else Expr.nilE
  | _ => errD ("string?: must be 1 argument")

/-- Registry entry `"symbol?"` (lines 329-341). -/
def symbolQF : List Expr → Expr
  | [a] => if a.isSymbol then Expr.tE else Expr.nilE
  | _ => errD ("symbol?: must be 1 argument")

/-- Registry entry `"string->symbol"` (lines 343-355). -/
def stringToSymbolF : List Expr → Expr
  | [a] =>
      match a with
      | .stringE s => Expr.symbol s
      | _ => errD ("string->symbol: must be a string")
  | _ => errD ("string->symbol: must be 1 argument")

/-- Registry entry `"symbol->string"` (lines 357-369). -/
def symbolToStringF : List Expr → Expr
  | [a] =>
      match a with
      | .symbol s => Expr.stringE s
      | _ => errD ("symbol->string: must be a symbol")
  | _ => errD ("symbol->string: must be 1 argument")

/-- Registry entry `"string->number"` (lines 371-388).  The lexer is out
of the sources; modelled from the spec (§6): a tokenizer call that either
yields a numeric token or fails, abstracted as the parameter `parse`. -/
def stringToNumberF (parse : String → Option ℚ) : List Expr → Expr
  | [a] =>
      match a with
      | .stringE s =>
          match parse s with
          | some q => Expr.number q
          | none => errD ("string->number: incorrect string")
      | _ => errD ("string->number: must be a string")
  | _ => errD ("string->number: must be 1 argument")

/-- Registry entry `"number->string"` (lines 390-402); Go's
`strconv.FormatFloat` is abstracted as the parameter `fmtF`. -/
def numberToStringF (fmtF : ℚ → String) : List Expr → Expr
  | [a] =>
      match a with
      | .number q => Expr.stringE (fmtF q)
      | _ => errD ("number->string: must be a number")
  | _ => errD ("number->string: must be 1 argument")

/-- The accumulation loop of `"+"` (lines 404-417). -/
def plusGo (res : ℚ) : List Expr → Expr
  | [] => Expr.number res
  | a :: rest =>
      if a.isNumber then plusGo (res + a.numberField) rest
      else errD ("+: expected numbers")

/-- Registry entry `"+"`: sum starting from `0.0`. -/
def plusF (args : List Expr) : Expr := plusGo 0 args

/-- The accumulation loop of `"-"` for the second and later arguments
(lines 433-444, iterations with `i > 0`). -/
def subGo (res : ℚ) : List Expr → Expr
  | [] => Expr.number res
  | a :: rest =>
      if a.isNumber then subGo (res - a.numberField) rest
      else errD ("-: expected numbers")

/-- Registry entry `"-"` (lines 419-448): `0` on no arguments, negation
on one numeric argument, left fold of subtraction otherwise. -/
def subF : List Expr → Expr
  | [] => Expr.number 0
  | [a] =>
      if a.isNumber then Expr.number (-(a.numberField))
      else errD ("-: expected numbers")
  | a :: rest =>
      if a.isNumber then subGo a.numberField rest
      else errD ("-: expected numbers")

/-- The accumulation loop of `"*"` (lines 450-463). -/
def mulGo (res : ℚ) : List Expr → Expr
  | [] => Expr.number res
  | a :: rest =>
      if a.isNumber then mulGo (res * a.numberField) rest
      else errD ("*: expected numbers")

/-- Registry entry `"*"`: product starting from `1.0`. -/
def mulF (args : List Expr) : Expr := mulGo 1 args

/-- The division loop of `"/"` over `args[1:]` (lines 473-482): a
non-`Number` divisor or a zero divisor is an Error value. -/
def divGo (res : ℚ) : List Expr → Expr
  | [] => Expr.number res
  | a :: rest =>
      if !a.isNumber then errD ("/: expected numbers")
      else if a.numberField = 0 then errD ("/: zero division")
      else divGo (res / a.numberField) rest

/-- Registry entry `"/"` (lines 465-486): at least one argument required;
`res := args[0].Number` reads the number field of the FIRST argument with
no variant check (line 471), then folds division over the rest. -/
def divF : List Expr → Expr
  | [] => errD ("/: expected at least one expression")
  | a :: rest => divGo a.numberField rest

/-- Registry entry `"display"` (lines 488-510); Go's `fmt.Sprintf("%f", ·)`
and the default `ToString` rendering are abstracted as parameters.  The
accumulated `ir.stdout` is passed and returned explicitly. -/
def displayF (fmtF : ℚ → String) (toStr : Expr → String) (stdout : String) :
    List Expr → String × Expr
  | [a] =>
      (stdout ++
        (match a with
        | .symbol s => s
        | .stringE s => s
        | .number q => fmtF q
        | .tE => "T"
        | .nilE => "nil"
        | e => toStr e), a)
  | _ => (stdout, errD ("display: expected one expression"))

/-! ## The Evaluator's argument-evaluation policies

The Evaluator itself is not among the sources; the way it prepares
argument lists for each `Mod` policy before invoking the behavior
function is modelled from the spec (§4.3).  Each `...Eval` model takes
the Evaluator's action on a sub-expression as an oracle
`E : Expr → Expr` and returns, besides the resulting expression, the
trace of the argument EXPRESSIONS the policy evaluated, in evaluation
order, so that "is never evaluated" is a statement about the trace. -/

/-- Modelled from the spec: ShortCircuitOr (`Mod` type `ModOr`, §4.3) —
evaluate arguments left to right, stop at the first whose value is not
`Nil` and return that value; `Nil` when every argument evaluates to
`Nil`. -/
def orEval (E : Expr → Expr) : List Expr → Expr × List Expr
  | [] => (Expr.nilE, [])
  | a :: rest =>
      if (E a).isNil then
        ((orEval E rest).1, a :: (orEval E rest).2)
      else (E a, [a])

/-- Modelled from the spec: the Eager evaluation of a whole argument
list, left to right (§4.3). -/
def evalAll (E : Expr → Expr) (args : List Expr) : List Expr := args.map E

/-- Modelled from the spec: ShortCircuitAnd (`Mod` type `ModAnd`, §4.3) —
evaluate every argument left to right (truthiness of intermediate
results does not abort evaluation) and hand the evaluated list to the
source behavior function `andF`. -/
def andEval (E : Expr → Expr) (args : List Expr) : Expr × List Expr :=
  (andF (evalAll E args), args)

/-- Modelled from the spec: TailSelect (`Mod` type `ModIf`, §4.3) —
evaluate only the first argument (the test), hand the evaluated test and
the RAW remaining arguments to the source behavior function `ifF`, whose
result the trampoline evaluates in the current tail position. -/
def ifEval (E : Expr → Expr) : List Expr → Expr × List Expr
  | [] => (ifF [], [])
  | a :: rest => (ifF (E a :: rest), [a])

/-- Modelled from the spec: PositionalEager (`Mod` type `ModExec`, §4.3,
§9) — evaluate only the arguments whose position is in the entry's
`Exec` set, pass the rest unevaluated.  Positions are numbered from `1`
over the argument list (§9 leaves the convention open; this matches the
observed `define`/`set!` behavior with `Exec = {2}`). -/
def execPrep (E : Expr → Expr) (exec : List Nat) : Nat → List Expr → List Expr
  | _, [] => []
  | i, a :: rest => (if i ∈ exec then E a else a) :: execPrep E exec (i + 1) rest

/-- The argument expressions a PositionalEager policy evaluates, in
order. -/
def execTrace (exec : List Nat) : Nat → List Expr → List Expr
  | _, [] => []
  | i, a :: rest => (if i ∈ exec then [a] else []) ++ execTrace exec (i + 1) rest

/-- `quote` through its registry policy (`ModExec` with the empty `Exec`
set, functions.go lines 48-51): no argument position is evaluated. -/
def quoteEval (E : Expr → Expr) (args : List Expr) : Expr × List Expr :=
  (quoteF (execPrep E [] 1 args), execTrace [] 1 args)

/-- `define` through its registry policy (`ModExec` with `Exec = {2}`,
functions.go lines 97-100): the bound-value argument is evaluated, the
target-symbol argument stays literal. -/
def defineEval (E : Expr → Expr) (cur : Frame) (rest : List Frame) (args : List Expr) :
    (Frame × List Frame × Expr) × List Expr :=
  (defineF cur rest (execPrep E [2] 1 args), execTrace [2] 1 args)

/-! ## Helper lemmas -/

/-- Overwriting `s` in a frame changes the binding of `s` and nothing
else. -/
lemma frameGet_frameSet (f : Frame) (s k : String) (v : Expr) :
    frameGet (frameSet f s v) k = if k = s then some v else frameGet f k := by
  induction f with
  | nil =>
      rcases eq_or_ne k s with rfl | h
      · simp [frameSet, frameGet]
      · simp [frameSet, frameGet, h, Ne.symm h]
  | cons e rest ih =>
      obtain ⟨k', w⟩ := e
      rcases eq_or_ne k' s with rfl | h1
      · rcases eq_or_ne k k' with rfl | h2
        · simp [frameSet, frameGet]
        · simp [frameSet, frameGet, h2, Ne.symm h2]
      · rcases eq_or_ne k' k with rfl | h2
        · simp [frameSet, frameGet, h1, Ne.symm h1]
        · simp [frameSet, frameGet, h1, h2, ih]

/-- A PositionalEager policy with an empty `Exec` set evaluates nothing. -/
lemma execPrep_empty (E : Expr → Expr) : ∀ (i : Nat) (args : List Expr),
    execPrep E [] i args = args := by
  intro i args
  induction args generalizing i with
  | nil => rfl
  | cons a rest ih => simp [execPrep, ih]

/-- A PositionalEager policy with an empty `Exec` set has an empty
evaluation trace. -/
lemma execTrace_empty : ∀ (i : Nat) (args : List Expr),
    execTrace [] i args = [] := by
  intro i args
  induction args generalizing i with
  | nil => rfl
  | cons a rest ih => simp [execTrace, ih]

/-- `quote`'s arity check. -/
lemma quoteF_arity (args : List Expr) (h : args.length ≠ 1) :
    (quoteF args).isError = true := by
  rcases args with _ | ⟨a, _ | ⟨b, rest⟩⟩
  · rfl
  · simp at h
  · rfl

/-- `car`'s arity check. -/
lemma carF_arity (args : List Expr) (h : args.length ≠ 1) :
    (carF args).isError = true := by
  rcases args with _ | ⟨a, _ | ⟨b, rest⟩⟩
  · rfl
  · simp at h
  · rfl

/-- `car` of a non-`Pair` is an Error value. -/
lemma carF_nonpair (e : Expr) (h : e.isPair = false) :
    (carF [e]).isError = true := by
  cases e <;> simp_all [carF, car, errD, Expr.isError, Expr.isPair]

/-- `cdr`'s arity check. -/
lemma cdrF_arity (args : List Expr) (h : args.length ≠ 1) :
    (cdrF args).isError = true := by
  rcases args with _ | ⟨a, _ | ⟨b, rest⟩⟩
  · rfl
  · simp at h
  · rfl

/-- `cdr` of a non-`Pair` is an Error value. -/
lemma cdrF_nonpair (e : Expr) (h : e.isPair = false) :
    (cdrF [e]).isError = true := by
  cases e <;> simp_all [cdrF, cdr, errD, Expr.isError, Expr.isPair]

/-- `cons`'s arity check. -/
lemma consF_arity (args : List Expr) (h : args.length ≠ 2) :
    (consF args).isError = true := by
  rcases args with _ | ⟨a, _ | ⟨b, _ | ⟨c, rest⟩⟩⟩
  · rfl
  · rfl
  · simp at h
  · rfl

/-- `if`'s arity check. -/
lemma ifF_arity (args : List Expr) (h2 : args.length ≠ 2) (h3 : args.length ≠ 3) :
    (ifF args).isError = true := by
  rcases args with _ | ⟨a, _ | ⟨b, _ | ⟨c, _ | ⟨d, rest⟩⟩⟩⟩
  · rfl
  · rfl
  · simp at h2
  · simp at h3
  · rfl

/-- `>`'s arity check. -/
lemma gtF_arity (args : List Expr) (h2 : args.length ≠ 2) (h3 : args.length ≠ 3) :
    (gtF args).isError = true := by
  rcases args with _ | ⟨a, _ | ⟨b, _ | ⟨c, _ | ⟨d, rest⟩⟩⟩⟩
  · rfl
  · rfl
  · simp at h2
  · simp at h3
  · rfl

/-- `<`'s arity check. -/
lemma ltF_arity (args : List Expr) (h2 : args.length ≠ 2) (h3 : args.length ≠ 3) :
    (ltF args).isError = true := by
  rcases args with _ | ⟨a, _ | ⟨b, _ | ⟨c, _ | ⟨d, rest⟩⟩⟩⟩
  · rfl
  · rfl
  · simp at h2
  · simp at h3
  · rfl

/-- `>` rejects a non-`Number` among two arguments. -/
lemma gtF_type2 (a b : Expr) (h : (a.isNumber && b.isNumber) = false) :
    (gtF [a, b]).isError = true := by
  simp [gtF, h, errD, Expr.isError]

/-- `>` rejects a non-`Number` among three arguments. -/
lemma gtF_type3 (a b c : Expr) (h : (a.isNumber && b.isNumber && c.isNumber) = false) :
    (gtF [a, b, c]).isError = true := by
  simp only [gtF, Bool.and_assoc] at *
  simp [h, errD, Expr.isError]

/-- `<` rejects a non-`Number` among two arguments. -/
lemma ltF_type2 (a b : Expr) (h : (a.isNumber && b.isNumber) = false) :
    (ltF [a, b]).isError = true := by
  simp [ltF, h, errD, Expr.isError]

/-- `<` rejects a non-`Number` among three arguments. -/
lemma ltF_type3 (a b c : Expr) (h : (a.isNumber && b.isNumber && c.isNumber) = false) :
    (ltF [a, b, c]).isError = true := by
  simp only [ltF, Bool.and_assoc] at *
  simp [h, errD, Expr.isError]

/-- `=`'s arity check. -/
lemma eqF_arity (args : List Expr) (h : args.length < 2) :
    (eqF args).isError = true := by
  rcases args with _ | ⟨a, _ | ⟨b, rest⟩⟩
  · rfl
  · rfl
  · simp only [List.length_cons] at h; omega

/-- `not`'s arity check. -/
lemma notF_arity (args : List Expr) (h : args.length ≠ 1) :
    (notF args).isError = true := by
  rcases args with _ | ⟨a, _ | ⟨b, rest⟩⟩
  · rfl
  · simp at h
  · rfl

/-- `atom?`'s arity check. -/
lemma atomQF_arity (args : List Expr) (h : args.length ≠ 1) :
    (atomQF args).isError = true := by
  rcases args with _ | ⟨a, _ | ⟨b, rest⟩⟩
  · rfl
  · simp at h
  · rfl

/-- `list?`'s arity check. -/
lemma listQF_arity (args : List Expr) (h : args.length ≠ 1) :
    (listQF args).isError = true := by
  rcases args with _ | ⟨a, _ | ⟨b, rest⟩⟩
  · rfl
  · simp at h
  · rfl

/-- `number?`'s arity check. -/
lemma numberQF_arity (args : List Expr) (h : args.length ≠ 1) :
    (numberQF args).isError = true := by
  rcases args with _ | ⟨a, _ | ⟨b, rest⟩⟩
  · rfl
  · simp at h
  · rfl

/-- `string?`'s arity check. -/
lemma stringQF_arity (args : List Expr) (h : args.length ≠ 1) :
    (stringQF args).isError = true := by
  rcases args with _ | ⟨a, _ | ⟨b, rest⟩⟩
  · rfl
  · simp at h
  · rfl

/-- `symbol?`'s arity check. -/
lemma symbolQF_arity (args : List Expr) (h : args.length ≠ 1) :
    (symbolQF args).isError = true := by
  rcases args with _ | ⟨a, _ | ⟨b, rest⟩⟩
  · rfl
  · simp at h
  · rfl

/-- `string->symbol`'s arity check. -/
lemma stringToSymbolF_arity (args : List Expr) (h : args.length ≠ 1) :
    (stringToSymbolF args).isError = true := by
  rcases args with _ | ⟨a, _ | ⟨b, rest⟩⟩
  · rfl
  · simp at h
  · rfl

/-- `string->symbol` rejects a non-`String`. -/
lemma stringToSymbolF_type (a : Expr) (h : a.isString = false) :
    (stringToSymbolF [a]).isError = true := by
  cases a <;> simp_all [stringToSymbolF, errD, Expr.isError, Expr.isString]

/-- `symbol->string`'s arity check. -/
lemma symbolToStringF_arity (args : List Expr) (h : args.length ≠ 1) :
    (symbolToStringF args).isError = true := by
  rcases args with _ | ⟨a, _ | ⟨b, rest⟩⟩
  · rfl
  · simp at h
  · rfl

/-- `symbol->string` rejects a non-`Symbol`. -/
lemma symbolToStringF_type (a : Expr) (h : a.isSymbol = false) :
    (symbolToStringF [a]).isError = true := by
  cases a <;> simp_all [symbolToStringF, errD, Expr.isError, Expr.isSymbol]

/-- `string->number`'s arity check (for every tokenizer behavior). -/
lemma stringToNumberF_arity (parse : String → Option ℚ) (args : List Expr)
    (h : args.length ≠ 1) : (stringToNumberF parse args).isError = true := by
  rcases args with _ | ⟨a, _ | ⟨b, rest⟩⟩
  · rfl
  · simp at h
  · rfl

/-- `string->number` rejects a non-`String` before consulting the lexer. -/
lemma stringToNumberF_type (parse : String → Option ℚ) (a : Expr)
    (h : a.isString = false) : (stringToNumberF parse [a]).isError = true := by
  cases a <;> simp_all [stringToNumberF, errD, Expr.isError, Expr.isString]

/-- `number->string`'s arity check (for every formatter behavior). -/
lemma numberToStringF_arity (fmtF : ℚ → String) (args : List Expr)
    (h : args.length ≠ 1) : (numberToStringF fmtF args).isError = true := by
  rcases args with _ | ⟨a, _ | ⟨b, rest⟩⟩
  · rfl
  · simp at h
  · rfl

/-- `number->string` rejects a non-`Number`. -/
lemma numberToStringF_type (fmtF : ℚ → String) (a : Expr)
    (h : a.isNumber = false) : (numberToStringF fmtF [a]).isError = true := by
  cases a <;> simp_all [numberToStringF, errD, Expr.isError, Expr.isNumber]

/-- `lambda`'s arity check. -/
lemma lambdaF_arity (env : Nat) (args : List Expr) (h : args.length < 2) :
    (lambdaF env args).isError = true := by
  rcases args with _ | ⟨a, _ | ⟨b, rest⟩⟩
  · rfl
  · rfl
  · simp only [List.length_cons] at h; omega

/-- `define`'s arity check returns the untouched state with an Error
value. -/
lemma defineF_arity (cur : Frame) (rest : List Frame) (args : List Expr)
    (h : args.length ≠ 2) :
    defineF cur rest args = (cur, rest, errD ("define: must be 2 arguments")) := by
  rcases args with _ | ⟨a, _ | ⟨b, _ | ⟨c, rest2⟩⟩⟩
  · rfl
  · rfl
  · simp at h
  · rfl

/-- `define` rejects a non-`Symbol` target without touching the state. -/
lemma defineF_nonsym (cur : Frame) (rest : List Frame) (a b : Expr)
    (h : a.isSymbol = false) :
    defineF cur rest [a, b] = (cur, rest, errD ("define: second argument is not symbol")) := by
  cases a <;> simp_all [defineF, Expr.isSymbol]

/-- `set!`'s arity check returns, for EVERY fuel bound, the untouched
chain with an Error value (the scan loop is never entered). -/
lemma setBangF_arity (fuel : Nat) (chain : List Frame) (args : List Expr)
    (h : args.length ≠ 2) :
    setBangF fuel chain args = some (chain, errD ("set!: must be 2 arguments")) := by
  rcases args with _ | ⟨a, _ | ⟨b, _ | ⟨c, rest2⟩⟩⟩
  · rfl
  · rfl
  · simp at h
  · rfl

/-- `set!` rejects a non-`Symbol` target, for every fuel bound, without
entering the scan loop. -/
lemma setBangF_nonsym (fuel : Nat) (chain : List Frame) (a b : Expr)
    (h : a.isSymbol = false) :
    setBangF fuel chain [a, b] = some (chain, errD ("set!: second argument is not symbol")) := by
  cases a <;> simp_all [setBangF, Expr.isSymbol]

/-- `display`'s arity check leaves the output accumulator untouched. -/
lemma displayF_arity (fmtF : ℚ → String) (toStr : Expr → String)
    (out : String) (args : List Expr) (h : args.length ≠ 1) :
    displayF fmtF toStr out args = (out, errD ("display: expected one expression")) := by
  rcases args with _ | ⟨a, _ | ⟨b, rest⟩⟩
  · rfl
  · simp at h
  · rfl

/-- `eval`'s arity check: the result is the `(begin <Error>)` pair, not a
bare Error value. -/
lemma evalF_arity (args : List Expr) (h : args.length ≠ 1) :
    evalF args =
      Expr.pair (Expr.symbol ("begin"))
        (Expr.pair (errD ("quote: must be 1 argument")) Expr.nilE) := by
  rcases args with _ | ⟨a, _ | ⟨b, rest⟩⟩
  · rfl
  · simp at h
  · rfl

/-- A non-`Number` anywhere in the list makes the `+` loop return an
Error value, whatever has been accumulated. -/
lemma plusGo_err : ∀ (res : ℚ) (l : List Expr),
    (∃ x ∈ l, x.isNumber = false) → (plusGo res l).isError = true := by
  intro res l
  induction l generalizing res with
  | nil => rintro ⟨x, hx, _⟩; cases hx
  | cons a rest ih =>
      rintro ⟨x, hx, hxn⟩
      by_cases ha : a.isNumber = true
      · rcases List.mem_cons.mp hx with rfl | hmem
        · rw [ha] at hxn; cases hxn
        · simpa [plusGo, ha] using ih (res + a.numberField) ⟨x, hmem, hxn⟩
      · have ha' : a.isNumber = false := by simpa using ha
        simp [plusGo, ha', errD, Expr.isError]

/-- A non-`Number` anywhere in the list makes the `-` loop return an
Error value. -/
lemma subGo_err : ∀ (res : ℚ) (l : List Expr),
    (∃ x ∈ l, x.isNumber = false) → (subGo res l).isError = true := by
  intro res l
  induction l generalizing res with
  | nil => rintro ⟨x, hx, _⟩; cases hx
  | cons a rest ih =>
      rintro ⟨x, hx, hxn⟩
      by_cases ha : a.isNumber = true
      · rcases List.mem_cons.mp hx with rfl | hmem
        · rw [ha] at hxn; cases hxn
        · simpa [subGo, ha] using ih (res - a.numberField) ⟨x, hmem, hxn⟩
      · have ha' : a.isNumber = false := by simpa using ha
        simp [subGo, ha', errD, Expr.isError]

/-- A non-`Number` anywhere in the list makes the `*` loop return an
Error value. -/
lemma mulGo_err : ∀ (res : ℚ) (l : List Expr),
    (∃ x ∈ l, x.isNumber = false) → (mulGo res l).isError = true := by
  intro res l
  induction l generalizing res with
  | nil => rintro ⟨x, hx, _⟩; cases hx
  | cons a rest ih =>
      rintro ⟨x, hx, hxn⟩
      by_cases ha : a.isNumber = true
      · rcases List.mem_cons.mp hx with rfl | hmem
        · rw [ha] at hxn; cases hxn
        · simpa [mulGo, ha] using ih (res * a.numberField) ⟨x, hmem, hxn⟩
      · have ha' : a.isNumber = false := by simpa using ha
        simp [mulGo, ha', errD, Expr.isError]

/-- A non-`Number` anywhere in the whole argument list makes `+` fail. -/
lemma plusF_err (args : List Expr) (h : ∃ x ∈ args, x.isNumber = false) :
    (plusF args).isError = true := plusGo_err 0 args h

/-- A non-`Number` anywhere in the whole argument list makes `*` fail. -/
lemma mulF_err (args : List Expr) (h : ∃ x ∈ args, x.isNumber = false) :
    (mulF args).isError = true := mulGo_err 1 args h

/-- A non-`Number` anywhere in the whole argument list makes `-` fail. -/
lemma subF_err (args : List Expr) (h : ∃ x ∈ args, x.isNumber = false) :
    (subF args).isError = true := by
  rcases args with _ | ⟨a, _ | ⟨b, rest⟩⟩
  · obtain ⟨x, hx, _⟩ := h; cases hx
  · obtain ⟨x, hx, hxn⟩ := h
    rcases List.mem_singleton.mp hx with rfl
    simp [subF, hxn, errD, Expr.isError]
  · by_cases ha : a.isNumber = true
    · obtain ⟨x, hx, hxn⟩ := h
      rcases List.mem_cons.mp hx with rfl | hmem
      · rw [ha] at hxn; cases hxn
      · simpa [subF, ha] using subGo_err a.numberField (b :: rest) ⟨x, hmem, hxn⟩
    · have ha' : a.isNumber = false := by simpa using ha
      simp [subF, ha', errD, Expr.isError]

/-- A non-`Number` or zero divisor anywhere in the division loop makes it
return an Error value, whatever has been accumulated. -/
lemma divGo_err : ∀ (res : ℚ) (l : List Expr),
    (∃ x ∈ l, x.isNumber = false ∨ x = Expr.number 0) →
    (divGo res l).isError = true := by
  intro res l
  induction l generalizing res with
  | nil => rintro ⟨x, hx, _⟩; cases hx
  | cons a rest ih =>
      rintro ⟨x, hx, hxn⟩
      by_cases ha : a.isNumber = true
      · by_cases ha0 : a.numberField = 0
        · simp [divGo, ha, ha0, errD, Expr.isError]
        · rcases List.mem_cons.mp hx with rfl | hmem
          · rcases hxn with hxn | hxn
            · rw [ha] at hxn; cases hxn
            · subst hxn; simp [Expr.numberField] at ha0
          · simpa [divGo, ha, ha0] using ih (res / a.numberField) ⟨x, hmem, hxn⟩
      · have ha' : a.isNumber = false := by simpa using ha
        simp [divGo, ha', errD, Expr.isError]

/-- The source `and` behavior function returns the last of a non-empty
evaluated argument list. -/
lemma andF_map_getLast (E : Expr → Expr) :
    ∀ (l : List Expr) (h : l ≠ []), andF (l.map E) = E (l.getLast h) := by
  intro l
  induction l with
  | nil => intro h; exact absurd rfl h
  | cons a rest ih =>
      intro _
      cases rest with
      | nil => rfl
      | cons b rest2 =>
          have step : andF (List.map E (a :: b :: rest2)) = andF (List.map E (b :: rest2)) := rfl
          rw [step, ih (List.cons_ne_nil b rest2), List.getLast_cons (List.cons_ne_nil b rest2)]

/-- The stuck state of the `set!` scan: once `curEnv` is
`ir.varsEnvironment.Parent` (index 1) and that frame does not bind `s`,
the loop reproduces the same state forever. -/
lemma setLoop_stuck (f0 f1 : Frame) (rest : List Frame) (s : String) (v : Expr)
    (h : frameHas f1 s = false) :
    ∀ fuel, setLoop (f0 :: f1 :: rest) s v fuel 1 = none := by
  intro fuel
  induction fuel with
  | zero => rfl
  | succ n ih =>
      have hlt : 1 < (f0 :: f1 :: rest).length := by simp
      simp only [setLoop]
      rw [dif_pos hlt]
      have hget : (f0 :: f1 :: rest).get ⟨1, hlt⟩ = f1 := rfl
      rw [hget, h]
      simpa using ih

/-! ## The claims -/

/-- C1: the claim says `set!` walks from the current Environment toward
the root, mutates the first Environment binding the symbol, and returns
an `UnboundSymbol` Error value when none binds it.  The code does not: on
a miss the loop re-points `curEnv` at `ir.varsEnvironment.Parent` (the
fixed index 1) instead of `curEnv.Parent`, so on any chain of at least
two Environments whose first two frames lack the symbol the loop runs
forever — whether the symbol is unbound everywhere (first conjunct) or
bound further toward the root (second conjunct) — and no quantity of fuel
makes the model terminate. -/
theorem setBang_scan_diverges :
    (∀ fuel, setBangF fuel [[], []] [Expr.symbol ("y"), Expr.number 1] = none)
    ∧ (∀ fuel, setBangF fuel [[], [], [("y", Expr.number 0)]]
        [Expr.symbol ("y"), Expr.number 1] = none) := by
  constructor
  · intro fuel
    cases fuel with
    | zero => rfl
    | succ n =>
        have h2 : setLoop [[], []] "y" (Expr.number 1) (n + 1) 0 = none :=
          setLoop_stuck [] [] [] "y" (Expr.number 1) rfl n
        simp [setBangF, h2]
  · intro fuel
    cases fuel with
    | zero => rfl
    | succ n =>
        have h2 : setLoop [[], [], [("y", Expr.number 0)]] "y" (Expr.number 1) (n + 1) 0 = none :=
          setLoop_stuck [] [] [[("y", Expr.number 0)]] "y" (Expr.number 1) rfl n
        simp [setBangF, h2]

/-- C2 counterexample: the claim says every non-`Number` operand of `/`
yields an Error value, but the first operand is never type-checked:
`(/ T 2)` yields the `Number` `0` (the Go zero value of `T`'s number
field divided by `2`), not an Error. -/
theorem div_unchecked_first_cex :
    (divF [Expr.tE, Expr.number 2]).isError = false
    ∧ divF [Expr.tE, Expr.number 2] = Expr.number 0 := by
  constructor
  · rfl
  · simp [divF, divGo, Expr.numberField, Expr.isNumber]

/-- C2 (amended): every argument of `/` after the first that is not a
`Number`, and every zero divisor, produces an Error value — in
particular `(/ 5 0)` is the zero-division Error, never a process fault —
but the first operand's type is not checked: its number field is used
directly, so a non-`Number` first operand with a valid non-zero divisor
yields a `Number` result. -/
theorem div_errors :
    (∀ (args : List Expr) (x : Expr), x ∈ args.tail →
        (x.isNumber = false ∨ x = Expr.number 0) → (divF args).isError = true)
    ∧ divF [Expr.number 5, Expr.number 0] = errD ("/: zero division")
    ∧ (∀ (x : Expr) (q : ℚ), q ≠ 0 → x.isNumber = false →
        divF [x, Expr.number q] = Expr.number (x.numberField / q)) := by
  refine ⟨?_, ?_, ?_⟩
  · intro args x hx h
    rcases args with _ | ⟨a, rest⟩
    · cases hx
    · exact divGo_err a.numberField rest ⟨x, by simpa using hx, h⟩
  · rfl
  · intro x q hq hx
    simp [divF, divGo, Expr.isNumber, Expr.numberField, hq]

/-- C2 witness: the hypotheses of `div_errors` hold at concrete inputs:
`T` sits after the first argument and is not a `Number`, and `2 ≠ 0`. -/
theorem div_errors_witness :
    (Expr.tE ∈ ([Expr.number 1, Expr.tE] : List Expr).tail)
    ∧ (Expr.tE.isNumber = false ∨ Expr.tE = Expr.number 0)
    ∧ (divF [Expr.number 1, Expr.tE]).isError = true
    ∧ ((2 : ℚ) ≠ 0)
    ∧ (Expr.tE.isNumber = false)
    ∧ divF [Expr.tE, Expr.number 2] = Expr.number (Expr.tE.numberField / 2) := by
  refine ⟨by simp, Or.inl rfl, ?_, by norm_num, rfl, ?_⟩
  · exact div_errors.1 [Expr.number 1, Expr.tE] Expr.tE (by simp) (Or.inl rfl)
  · exact div_errors.2.2 Expr.tE 2 (by norm_num) rfl

/-- C3 counterexample: the claim says every behavior function returns an
Error VALUE on an arity or type violation; `eval` with zero arguments
instead returns the `(begin <Error>)` pair (not an Error variant), and
`/` with a non-`Number` first operand returns a `Number`. -/
theorem eval_wraps_error_cex :
    ((evalF []).isError = false)
    ∧ evalF [] = Expr.pair (Expr.symbol ("begin"))
        (Expr.pair (errD ("quote: must be 1 argument")) Expr.nilE)
    ∧ ((divF [Expr.stringE ("a"), Expr.number 3]).isError = false) := by
  refine ⟨rfl, rfl, ?_⟩
  simp [divF, divGo, Expr.numberField, Expr.isNumber, Expr.isError]

/-- C3 (amended): every primitive behavior function in the registry
signals arity and operand-type violations by returning an Error value
and never an unrecoverable fault, with two exceptions visible in the
code: `eval` with an argument count other than one returns a
`(begin <Error>)` list (which evaluates to the Error), and `/` does not
type-check its first operand (only divisors, which must be non-zero
`Number`s).  Stateful primitives (`define`, `set!`, `display`) leave
their state untouched on a violation, and `set!`'s checks precede its
scan loop, so a violating argument list terminates for every fuel
bound. -/
theorem primitive_check_discipline :
    (∀ args : List Expr, args.length ≠ 1 →
        evalF args = Expr.pair (Expr.symbol ("begin"))
          (Expr.pair (errD ("quote: must be 1 argument")) Expr.nilE))
    ∧ (∀ args : List Expr, args.length ≠ 1 → (quoteF args).isError = true)
    ∧ (∀ args : List Expr, args.length ≠ 1 → (carF args).isError = true)
    ∧ (∀ e : Expr, e.isPair = false → (carF [e]).isError = true)
    ∧ (∀ args : List Expr, args.length ≠ 1 → (cdrF args).isError = true)
    ∧ (∀ e : Expr, e.isPair = false → (cdrF [e]).isError = true)
    ∧ (∀ args : List Expr, args.length ≠ 2 → (consF args).isError = true)
    ∧ (∀ (cur : Frame) (rest : List Frame) (args : List Expr), args.length ≠ 2 →
        defineF cur rest args = (cur, rest, errD ("define: must be 2 arguments")))
    ∧ (∀ (cur : Frame) (rest : List Frame) (a b : Expr), a.isSymbol = false →
        defineF cur rest [a, b] = (cur, rest, errD ("define: second argument is not symbol")))
    ∧ (∀ (fuel : Nat) (chain : List Frame) (args : List Expr), args.length ≠ 2 →
        setBangF fuel chain args = some (chain, errD ("set!: must be 2 arguments")))
    ∧ (∀ (fuel : Nat) (chain : List Frame) (a b : Expr), a.isSymbol = false →
        setBangF fuel chain [a, b] = some (chain, errD ("set!: second argument is not symbol")))
    ∧ (∀ (env : Nat) (args : List Expr), args.length < 2 → (lambdaF env args).isError = true)
    ∧ (∀ args : List Expr, args.length ≠ 2 → args.length ≠ 3 → (ifF args).isError = true)
    ∧ (∀ args : List Expr, args.length ≠ 2 → args.length ≠ 3 →
        (gtF args).isError = true ∧ (ltF args).isError = true)
    ∧ (∀ a b : Expr, (a.isNumber && b.isNumber) = false →
        (gtF [a, b]).isError = true ∧ (ltF [a, b]).isError = true)
    ∧ (∀ a b c : Expr, (a.isNumber && b.isNumber && c.isNumber) = false →
        (gtF [a, b, c]).isError = true ∧ (ltF [a, b, c]).isError = true)
    ∧ (∀ args : List Expr, args.length < 2 → (eqF args).isError = true)
    ∧ (∀ args : List Expr, args.length ≠ 1 → (notF args).isError = true)
    ∧ (∀ args : List Expr, args.length ≠ 1 → (atomQF args).isError = true)
    ∧ (∀ args : List Expr, args.length ≠ 1 → (listQF args).isError = true)
    ∧ (∀ args : List Expr, args.length ≠ 1 → (numberQF args).isError = true)
    ∧ (∀ args : List Expr, args.length ≠ 1 → (stringQF args).isError = true)
    ∧ (∀ args : List Expr, args.length ≠ 1 → (symbolQF args).isError = true)
    ∧ (∀ args : List Expr, args.length ≠ 1 → (stringToSymbolF args).isError = true)
    ∧ (∀ a : Expr, a.isString = false → (stringToSymbolF [a]).isError = true)
    ∧ (∀ args : List Expr, args.length ≠ 1 → (symbolToStringF args).isError = true)
    ∧ (∀ a : Expr, a.isSymbol = false → (symbolToStringF [a]).isError = true)
    ∧ (∀ (parse : String → Option ℚ) (args : List Expr), args.length ≠ 1 →
        (stringToNumberF parse args).isError = true)
    ∧ (∀ (parse : String → Option ℚ) (a : Expr), a.isString = false →
        (stringToNumberF parse [a]).isError = true)
    ∧ (∀ (fmtF : ℚ → String) (args : List Expr), args.length ≠ 1 →
        (numberToStringF fmtF args).isError = true)
    ∧ (∀ (fmtF : ℚ → String) (a : Expr), a.isNumber = false →
        (numberToStringF fmtF [a]).isError = true)
    ∧ (∀ args : List Expr, (∃ x ∈ args, x.isNumber = false) →
        (plusF args).isError = true ∧ (subF args).isError = true ∧ (mulF args).isError = true)
    ∧ ((divF []).isError = true)
    ∧ (∀ args : List Expr, (∃ x ∈ args.tail, x.isNumber = false) → (divF args).isError = true)
    ∧ (∀ (fmtF : ℚ → String) (toStr : Expr → String) (out : String) (args : List Expr),
        args.length ≠ 1 → displayF fmtF toStr out args = (out, errD ("display: expected one expression"))) := by
  refine ⟨evalF_arity, quoteF_arity, carF_arity, carF_nonpair, cdrF_arity, cdrF_nonpair,
    consF_arity, defineF_arity, defineF_nonsym, setBangF_arity, setBangF_nonsym,
    lambdaF_arity, ifF_arity,
    fun args h2 h3 => ⟨gtF_arity args h2 h3, ltF_arity args h2 h3⟩,
    fun a b h => ⟨gtF_type2 a b h, ltF_type2 a b h⟩,
    fun a b c h => ⟨gtF_type3 a b c h, ltF_type3 a b c h⟩,
    eqF_arity, notF_arity, atomQF_arity, listQF_arity, numberQF_arity, stringQF_arity,
    symbolQF_arity, stringToSymbolF_arity, stringToSymbolF_type, symbolToStringF_arity,
    symbolToStringF_type, stringToNumberF_arity, stringToNumberF_type,
    numberToStringF_arity, numberToStringF_type,
    fun args h => ⟨plusF_err args h, subF_err args h, mulF_err args h⟩,
    rfl, ?_, displayF_arity⟩
  intro args h
  rcases args with _ | ⟨a, rest⟩
  · obtain ⟨x, hx, _⟩ := h; cases hx
  · obtain ⟨x, hx, hxn⟩ := h
    exact divGo_err a.numberField rest ⟨x, by simpa using hx, Or.inl hxn⟩

/-- C3 witness: the check discipline evaluated at concrete violating
inputs — `quote` with zero arguments and `>` with a non-`Number`
operand. -/
theorem primitive_check_discipline_witness :
    (([] : List Expr).length ≠ 1) ∧ ((quoteF []).isError = true)
    ∧ ((Expr.tE.isNumber && (Expr.number 2).isNumber) = false)
    ∧ ((gtF [Expr.tE, Expr.number 2]).isError = true) := by
  obtain ⟨-, h2, -, -, -, -, -, -, -, -, -, -, -, -, h15, -⟩ := primitive_check_discipline
  exact ⟨by simp, h2 [] (by simp), rfl, (h15 Expr.tE (Expr.number 2) rfl).1⟩

/-- C4: under the ShortCircuitAnd policy `and` evaluates ALL of its
arguments left to right (the trace is the whole argument list, whatever
truthiness the intermediate results have) and returns the last evaluated
result; with zero arguments it returns `T`. -/
theorem and_eager_all :
    (∀ E : Expr → Expr, andEval E [] = (Expr.tE, []))
    ∧ (∀ (E : Expr → Expr) (args : List Expr), (andEval E args).2 = args)
    ∧ (∀ (E : Expr → Expr) (args : List Expr) (h : args ≠ []),
        (andEval E args).1 = E (args.getLast h)) := by
  refine ⟨fun E => rfl, fun E args => rfl, fun E args h => ?_⟩
  exact andF_map_getLast E args h

/-- C4 witness: `(and 1 Nil 3)` evaluates all three arguments and
returns `3`. -/
theorem and_eager_all_witness :
    ([Expr.number 1, Expr.nilE, Expr.number 3] ≠ ([] : List Expr))
    ∧ (andEval id [Expr.number 1, Expr.nilE, Expr.number 3]).1 = Expr.number 3 := by
  refine ⟨by simp, ?_⟩
  rw [and_eager_all.2.2 id [Expr.number 1, Expr.nilE, Expr.number 3] (by simp)]
  rfl

/-- C5: under the ShortCircuitOr policy `or` evaluates arguments left to
right, stops at and returns the first evaluated argument that is not
`Nil` (its trace holds nothing after that argument), returns `Nil` when
every argument evaluates to `Nil`, and returns `Nil` on zero arguments;
the source behavior function `orF` computes the same result from the
evaluated arguments. -/
theorem or_short_circuit :
    (∀ E : Expr → Expr, orEval E [] = (Expr.nilE, []))
    ∧ (∀ (E : Expr → Expr) (pre : List Expr) (a : Expr) (post : List Expr),
        (∀ x ∈ pre, (E x).isNil = true) → (E a).isNil = false →
        orEval E (pre ++ a :: post) = (E a, pre ++ [a]))
    ∧ (∀ (E : Expr → Expr) (args : List Expr),
        (∀ x ∈ args, (E x).isNil = true) → orEval E args = (Expr.nilE, args))
    ∧ (∀ (E : Expr → Expr) (args : List Expr), (orEval E args).1 = orF (args.map E)) := by
  refine ⟨fun E => rfl, ?_, ?_, ?_⟩
  · intro E pre a post
    induction pre with
    | nil => intro _ ha; simp [orEval, ha]
    | cons x pre' ih =>
        intro hpre ha
        have hx : (E x).isNil = true := hpre x (List.mem_cons_self x pre')
        have ih' := ih (fun y hy => hpre y (List.mem_cons_of_mem x hy)) ha
        simp [orEval, hx, ih']
  · intro E args
    induction args with
    | nil => intro _; rfl
    | cons a rest ih =>
        intro h
        have ha : (E a).isNil = true := h a (List.mem_cons_self a rest)
        have ih' := ih (fun y hy => h y (List.mem_cons_of_mem a hy))
        simp [orEval, ha, ih']
  · intro E args
    induction args with
    | nil => rfl
    | cons a rest ih =>
        by_cases ha : (E a).isNil = true
        · simp [orEval, orF, ha, ih]
        · have ha' : (E a).isNil = false := by simpa using ha
          simp [orEval, orF, ha']

/-- C5 witness: `(or Nil 5 x)` stops at `5`: the trace drops the third
argument. -/
theorem or_short_circuit_witness :
    (∀ x ∈ [Expr.nilE], (id x).isNil = true)
    ∧ (id (Expr.number 5)).isNil = false
    ∧ orEval id [Expr.nilE, Expr.number 5, Expr.symbol ("unreached")]
        = (Expr.number 5, [Expr.nilE, Expr.number 5]) := by
  refine ⟨?_, rfl, ?_⟩
  · intro x hx; rw [List.mem_singleton] at hx; subst hx; rfl
  · have h := or_short_circuit.2.1 id [Expr.nilE] (Expr.number 5)
      [Expr.symbol ("unreached")]
      (by intro x hx; rw [List.mem_singleton] at hx; subst hx; rfl) rfl
    simpa using h

/-- C6: under the TailSelect policy `if` evaluates only its first
argument (its trace is at most the test); a truthy test selects the
second argument and a `Nil` test with a third argument selects the
third, each returned unevaluated for the trampoline; any other argument
count yields an Error value. -/
theorem if_tail_select :
    (∀ (E : Expr → Expr) (t a : Expr),
        ifEval E [t, a] = ((if (E t).isNil = true then Expr.nilE else a), [t]))
    ∧ (∀ (E : Expr → Expr) (t a b : Expr),
        ifEval E [t, a, b] = ((if (E t).isNil = true then b else a), [t]))
    ∧ (∀ (E : Expr → Expr) (args : List Expr),
        args.length ≠ 2 → args.length ≠ 3 → ((ifEval E args).1).isError = true)
    ∧ (∀ (E : Expr → Expr) (args : List Expr), (ifEval E args).2 = args.take 1) := by
  refine ⟨fun E t a => rfl, fun E t a b => rfl, ?_, ?_⟩
  · intro E args h2 h3
    rcases args with _ | ⟨a, rest⟩
    · rfl
    · exact ifF_arity (E a :: rest) (by simpa using h2) (by simpa using h3)
  · intro E args
    rcases args with _ | ⟨a, rest⟩
    · rfl
    · rfl

/-- C6 witness: `if` with a single argument is an arity Error. -/
theorem if_tail_select_witness :
    (([Expr.tE] : List Expr).length ≠ 2) ∧ (([Expr.tE] : List Expr).length ≠ 3)
    ∧ ((ifEval id [Expr.tE]).1).isError = true :=
  ⟨by simp, by simp, if_tail_select.2.2.1 id [Expr.tE] (by simp) (by simp)⟩

/-- C7: under its Opaque policy (`ModExec` with the empty `Exec` set)
`quote` returns its single argument completely unevaluated — the
evaluation trace is empty for EVERY evaluator action `E`, so unbound
symbols inside the argument are never touched — and any other argument
count yields an Error value. -/
theorem quote_opaque :
    (∀ (E : Expr → Expr) (e : Expr), quoteEval E [e] = (e, []))
    ∧ (∀ (E : Expr → Expr) (args : List Expr), args.length ≠ 1 →
        ((quoteEval E args).1).isError = true) := by
  constructor
  · intro E e
    simp [quoteEval, execPrep_empty, execTrace_empty, quoteF]
  · intro E args h
    have hq : quoteEval E args = (quoteF args, []) := by
      simp [quoteEval, execPrep_empty, execTrace_empty]
    rw [hq]
    exact quoteF_arity args h

/-- C7 witness: `quote` with zero arguments is an arity Error. -/
theorem quote_opaque_witness :
    (([] : List Expr).length ≠ 1) ∧ ((quoteEval id []).1).isError = true :=
  ⟨by simp, quote_opaque.2 id [] (by simp)⟩

/-- C8: `define` evaluates only its bound-value argument (the trace is
`[v]`; the target symbol stays literal), binds or overwrites the symbol
in the CURRENT frame only — the ancestor chain is returned untouched,
whatever it binds — and the updated current frame maps the symbol to the
evaluated value and leaves every other key unchanged. -/
theorem define_current_only :
    ∀ (E : Expr → Expr) (cur : Frame) (rest : List Frame) (s : String) (v : Expr),
      defineEval E cur rest [Expr.symbol s, v] = ((frameSet cur s (E v), rest, E v), [v])
      ∧ (∀ k, frameGet (frameSet cur s (E v)) k
          = if k = s then some (E v) else frameGet cur k) := by
  intro E cur rest s v
  constructor
  · norm_num [defineEval, defineF, execPrep, execTrace]
  · intro k
    exact frameGet_frameSet cur s k (E v)

/-- C9: `>` and `<` accept two or three arguments (every other count is
an arity Error), require every supplied argument to be a `Number`, and
compare only the first two — the value of a numeric third argument never
changes the result. -/
theorem cmp_first_two :
    (∀ a b : ℚ, gtF [Expr.number a, Expr.number b] = (if a > b then Expr.tE else Expr.nilE)
        ∧ ltF [Expr.number a, Expr.number b] = (if a < b then Expr.tE else Expr.nilE))
    ∧ (∀ a b c : ℚ,
        gtF [Expr.number a, Expr.number b, Expr.number c] = gtF [Expr.number a, Expr.number b]
        ∧ ltF [Expr.number a, Expr.number b, Expr.number c] = ltF [Expr.number a, Expr.number b])
    ∧ (∀ args : List Expr, args.length ≠ 2 → args.length ≠ 3 →
        (gtF args).isError = true ∧ (ltF args).isError = true)
    ∧ (∀ a b : Expr, (a.isNumber && b.isNumber) = false →
        (gtF [a, b]).isError = true ∧ (ltF [a, b]).isError = true)
    ∧ (∀ a b c : Expr, (a.isNumber && b.isNumber && c.isNumber) = false →
        (gtF [a, b, c]).isError = true ∧ (ltF [a, b, c]).isError = true) := by
  refine ⟨fun a b => ⟨rfl, rfl⟩, fun a b c => ⟨rfl, rfl⟩,
    fun args h2 h3 => ⟨gtF_arity args h2 h3, ltF_arity args h2 h3⟩,
    fun a b h => ⟨gtF_type2 a b h, ltF_type2 a b h⟩,
    fun a b c h => ⟨gtF_type3 a b c h, ltF_type3 a b c h⟩⟩

/-- C9 witness: one argument is an arity Error; `T` among two arguments
is a type Error. -/
theorem cmp_first_two_witness :
    (([Expr.number 1] : List Expr).length ≠ 2)
    ∧ (([Expr.number 1] : List Expr).length ≠ 3)
    ∧ (gtF [Expr.number 1]).isError = true
    ∧ ((Expr.tE.isNumber && (Expr.number 2).isNumber) = false)
    ∧ (ltF [Expr.tE, Expr.number 2]).isError = true := by
  refine ⟨by simp, by simp, ?_, rfl, ?_⟩
  · exact (cmp_first_two.2.2.1 [Expr.number 1] (by simp) (by simp)).1
  · exact (cmp_first_two.2.2.2.1 Expr.tE (Expr.number 2) rfl).2

/-- C10: the arithmetic primitives return their identity element on an
empty argument list — `(+)` is `0`, `(*)` is `1`, `(-)` is `0` — and `-`
on exactly one numeric argument returns its negation. -/
theorem arith_identities :
    plusF [] = Expr.number 0 ∧ mulF [] = Expr.number 1 ∧ subF [] = Expr.number 0
    ∧ ∀ q : ℚ, subF [Expr.number q] = Expr.number (-q) :=
  ⟨rfl, rfl, rfl, fun _ => rfl⟩

end LispX
